import Mathlib

/-!
Verification of the BlackRoad Command Center gateway (src/src/index.ts).

The worker is embedded shallowly:

* JSON values are the inductive `Json` (numbers as exact rationals `ℚ`;
  the JavaScript `undefined` is represented by *absence*, i.e. `Option Json`
  or an omitted object key, matching `JSON.stringify`'s key omission).
* The inbound `Request` is `Req` (method, pathname, parsed JSON body as
  `Option Json` where `none` models a body whose JSON parse throws, and the
  `q` search parameter).
* Every upstream interaction (GitHub, Stripe, HuggingFace, Cloudflare, the
  D1 database, `console.log`) is recorded in an `UpCall` trace, and the data
  the upstream would return is supplied by an `Oracle` record, so each
  handler is a pure function `Req → Oracle → HandlerResult`.
  `Except.error` models a thrown exception reaching the top-level
  `try`/`catch`, which converts it to a 500 response; the error carries the
  upstream calls already made before the throw.  Modelled throw points:
  a request body that fails to parse (`Req.body = none`), destructuring a
  JSON-null parsed body (every handler that destructures the body), and
  property access on a JSON-null Stripe response at the three places the
  source performs it (`product.id`, `priceObj.id`, `link.url`).  Upstream
  *projection* of response fields elsewhere (e.g. `result.html_url` after
  a repo creation, row fields) is modelled by `Json.lookup`, which treats
  a null value like an object without the field; those accesses occur
  after every upstream call of their handler has been issued, so none of
  the trace or envelope theorems below depends on the distinction.
* A `Response` keeps the status, the header list and the body; `some v`
  as a body stands for `JSON.stringify(v, null, 2)`, i.e. the 2-space
  pretty-printed serialization of `v`, exactly as built by the `json`
  helper of the source.
-/

/-- JSON values; numbers are exact rationals (the float64 arithmetic of the
source is modelled by exact rational arithmetic). -/
inductive Json where
  | null : Json
  | bool (b : Bool) : Json
  | num (q : ℚ) : Json
  | str (s : String) : Json
  | arr (elems : List Json) : Json
  | obj (fields : List (String × Json)) : Json

/-- Property access `j.k` on a JSON value that is not `null`: `none`
models `undefined` (primitives and missing keys).  Property access on a
JSON `null` throws a TypeError in JavaScript; the handlers guard those
accesses with `Json.isNull` wherever the source performs them on a parsed
request body or on a Stripe response before the next upstream call. -/
def Json.lookup : Json → String → Option Json
  | .obj kvs, k => (kvs.find? (fun kv => kv.1 == k)).map (fun kv => kv.2)
  | _, _ => none

/-- Whether a JSON value is `null` — the one parsed-JSON value on which
JavaScript destructuring and property access throw a TypeError. -/
def Json.isNull : Json → Bool
  | .null => true
  | _ => false

/-- Projection of one property, as in building an object literal from
`j.k` under `JSON.stringify`: the key is omitted when the accessed
property is `undefined`. -/
def jf (j : Json) (k out : String) : List (String × Json) :=
  match j.lookup k with
  | some v => [(out, v)]
  | none => []

/-- Same key-omission rule for an already-looked-up optional value. -/
def jfOpt (v : Option Json) (out : String) : List (String × Json) :=
  match v with
  | some v => [(out, v)]
  | none => []

/-- JavaScript string coercion, modelled on the fragment the source
exercises: template interpolation of body fields.  Strings, booleans and
null follow JS exactly; number/array/object rendering (never reached by a
well-formed request) is loose. -/
def jsToStr : Json → String
  | .str s => s
  | .bool true => "true"
  | .bool false => "false"
  | .null => "null"
  | .num q => toString q
  | .arr _ => ""
  | .obj _ => "[object Object]"

/-- Coercion of a possibly-`undefined` value, as in `` `${x}` `` where `x`
may be undefined. -/
def jOptStr : Option Json → String
  | some v => jsToStr v
  | none => "undefined"

/-- JavaScript numeric coercion on the shapes the handlers feed to
arithmetic.  NaN-producing inputs (strings, missing values) are modelled
as 0; every claim instantiates genuinely numeric inputs. -/
def jsToNum : Json → ℚ
  | .num q => q
  | .bool true => 1
  | .bool false => 0
  | _ => 0

/-- JavaScript truthiness of a JSON value. -/
def jsTruthy : Json → Bool
  | .null => false
  | .bool b => b
  | .num q => q != 0
  | .str s => s != ""
  | .arr _ => true
  | .obj _ => true

/-- The JavaScript `Math.round`: floor(x + 1/2), i.e. round-half-up
(towards +infinity). -/
def jsRound (q : ℚ) : Int := ⌊q + 1/2⌋

/-- The base64 alphabet character at index `n`. -/
def b64c (n : Nat) : Char :=
  "ABCDEFGHIJKLMNOPQRSTUVWXYZabcdefghijklmnopqrstuvwxyz0123456789+/".data.getD n 'A'

/-- Standard base64 of a byte list, three bytes to four characters. -/
def b64chunks : List Nat → List Char
  | [] => []
  | [a] => [b64c (a / 4), b64c (a % 4 * 16), '=', '=']
  | [a, b] => [b64c (a / 4), b64c (a % 4 * 16 + b / 16), b64c (b % 16 * 4), '=']
  | a :: b :: c :: rest =>
      b64c (a / 4) :: b64c (a % 4 * 16 + b / 16) :: b64c (b % 16 * 4 + c / 64) ::
        b64c (c % 64) :: b64chunks rest

/-- The Worker runtime `btoa`, defined (as upstream) on code points below
256. -/
def btoa (s : String) : String := ⟨b64chunks (s.data.map (fun c => c.toNat % 256))⟩

/-- The JavaScript `path.startsWith(pre)`: a raw string-prefix test, not
a path-segment test. -/
def startsWithJs (p pre : String) : Bool := pre.data.isPrefixOf p.data

/-- A character of the regex class `[\w-]` (ASCII word characters and
dash). -/
def isWordDash (c : Char) : Bool := c.isAlphanum || c = '_' || c = '-'

/-- Matching a path against an anchored regex of the form prefix followed
by one identifier segment of word characters and dashes, as in the
source's route patterns: returns the trailing identifier segment on a
match.  Under a match the segment equals the `path.split('/')` component
the source extracts. -/
def matchOneSeg (pre p : String) : Option String :=
  if pre.data.isPrefixOf p.data then
    let rest := p.drop pre.length
    if rest ≠ "" ∧ rest.data.all isWordDash then some rest else none
  else none

/-- An inbound request: method, `url.pathname`, the parsed JSON body
(`none` when `request.json()` would throw), and the `q` search parameter
(`none` when absent). -/
structure Req where
  method : String
  path : String
  body : Option Json
  q : Option String

/-- A value sent in a form-urlencoded Stripe body: `URLSearchParams`
stringifies, so a string or (for `Math.round` results and literal
quantities) an integer. -/
inductive FormVal where
  | fs (s : String) : FormVal
  | fi (n : Int) : FormVal
deriving DecidableEq

/-- One upstream interaction, in program order. -/
inductive UpCall where
  | gh (endpoint method : String) (body : Option Json) : UpCall
  | stripe (endpoint method : String) (body : Option (List (String × FormVal))) : UpCall
  | hf (endpoint : String) : UpCall
  | cf (endpoint : String) : UpCall
  | d1run (sql : String) : UpCall
  | log (line : String) : UpCall

/-- What the upstream services return, per request.  Collection payloads
are typed as the well-formed shapes the upstream APIs document (a JSON
array of rows); `ghContents` distinguishes a throwing metadata fetch
(`Except.error`) from a fetch that returned a JSON value; the Cloudflare
and D1 fields are `Option` because the source explicitly guards against a
missing `result`/`results` list.  D1 bind arguments are elided from the
trace (no claim concerns them). -/
structure Oracle where
  ghOrgs : List Json
  ghRepos : List Json
  ghCreateRepo : Json
  ghContents : Except Unit Json
  ghWrite : Json
  stripeProductsData : Json
  stripeProduct : Json
  stripePrice : Json
  stripeLink : Json
  stripeCustomersData : List Json
  hfModels : List Json
  hfSpaces : Json
  cfWorkers : Option (List Json)
  cfKv : Option (List Json)
  cfD1 : Option (List Json)
  agentResults : Option (List Json)
  agentById : String → Option Json
  uuid : String
  now : String

/-- An HTTP response: status, headers in order, and body (`some v` stands
for the 2-space pretty-printed `JSON.stringify(v, null, 2)`; `none` is an
empty body). -/
structure Response where
  status : Nat
  headers : List (String × String)
  body : Option Json

/-- The fixed CORS-permissive header set. -/
def corsHeaders : List (String × String) :=
  [("Access-Control-Allow-Origin", "*"),
   ("Access-Control-Allow-Methods", "GET, POST, PUT, DELETE, OPTIONS"),
   ("Access-Control-Allow-Headers", "Content-Type, Authorization, X-API-Key")]

/-- The `json()` response helper: pretty-printed body, CORS headers plus
`Content-Type: application/json`. -/
def json (data : Json) (status : Nat) : Response :=
  ⟨status, corsHeaders ++ [("Content-Type", "application/json")], some data⟩

/-- The CORS preflight response: `new Response(null, corsHeaders)`. -/
def preflightResp : Response := ⟨200, corsHeaders, none⟩

/-- Exception message used when `request.json()` fails to parse; the
exact text is irrelevant to every claim. -/
def parseFailMsg : String := "Unexpected token in JSON"

/-- Exception message for destructuring a JSON-null request body (the
source's `const { ... } = body` throws a TypeError when `body` is null);
the exact text is not modelled. -/
def nullBodyMsg : String := "Cannot destructure property of null"

/-- Exception message for property access on a JSON-null upstream
response (e.g. `product.id` when the Stripe product response is null);
the exact text is not modelled. -/
def nullPropMsg : String := "Cannot read properties of null"

-- ============ GITHUB ============

/-- The `sha` obtained by the file-upsert pre-check: `none` when the
metadata fetch threw or when the fetched object has no `sha` property. -/
def ghPrecheckSha (o : Oracle) : Option Json :=
  match o.ghContents with
  | .error _ => none
  | .ok existing => existing.lookup "sha"

/-- A handler result: either a thrown exception message together with the
upstream calls already made before the throw, or a response together with
the full call trace. -/
abbrev HandlerResult := Except (String × List UpCall) (Response × List UpCall)

/-- The `handleGitHub` handler of the source.  Destructuring a JSON-null
body throws before any upstream call. -/
def handleGitHub (req : Req) (o : Oracle) : HandlerResult :=
  if req.path = "/github/orgs" ∧ req.method = "GET" then
    .ok (json (.arr (o.ghOrgs.map (fun og =>
           .obj (jf og "login" "name" ++ jf og "html_url" "url")))) 200,
         [.gh "/user/orgs?per_page=100" "GET" none])
  else if (matchOneSeg "/github/repos/" req.path).isSome ∧ req.method = "GET" then
    let org := (matchOneSeg "/github/repos/" req.path).getD ""
    .ok (json (.arr (o.ghRepos.map (fun r =>
           .obj (jf r "name" "name" ++ jf r "html_url" "url" ++ jf r "language" "language")))) 200,
         [.gh ("/orgs/" ++ org ++ "/repos?per_page=100") "GET" none])
  else if req.path = "/github/repo" ∧ req.method = "POST" then
    match req.body with
    | none => .error (parseFailMsg, [])
    | some b =>
      if b.isNull then .error (nullBodyMsg, [])
      else
        let orgS := jOptStr ((b.lookup "org").orElse (fun _ => some (.str "BlackRoad-OS")))
        let description := (b.lookup "description").getD (.str "")
        let isPrivate := (b.lookup "private").getD (.bool false)
        let result := o.ghCreateRepo
        .ok (json (.obj ([("created", .bool true)] ++
               jf result "html_url" "url" ++ jf result "name" "name")) 200,
             [.gh ("/orgs/" ++ orgS ++ "/repos") "POST"
               (some (.obj (jfOpt (b.lookup "name") "name" ++
                 [("description", description), ("private", isPrivate),
                  ("auto_init", .bool true)])))])
  else if req.path = "/github/file" ∧ req.method = "POST" then
    match req.body with
    | none => .error (parseFailMsg, [])
    | some b =>
      if b.isNull then .error (nullBodyMsg, [])
      else
        let orgS := jOptStr ((b.lookup "org").orElse (fun _ => some (.str "BlackRoad-OS")))
        let repoS := jOptStr (b.lookup "repo")
        let fpS := jOptStr (b.lookup "path")
        let encoded := btoa (jOptStr (b.lookup "content"))
        let msgVal := (b.lookup "message").getD (.str "Update via Command Center")
        let sha := ghPrecheckSha o
        let ep := "/repos/" ++ orgS ++ "/" ++ repoS ++ "/contents/" ++ fpS
        let writeBody : Json :=
          .obj ([("message", msgVal), ("content", .str encoded)] ++ jfOpt sha "sha")
        let result := o.ghWrite
        .ok (json (.obj ([("success", .bool true)] ++
               jfOpt ((result.lookup "content").bind (fun c => c.lookup "html_url")) "url")) 200,
             [.gh ep "GET" none, .gh ep "PUT" (some writeBody)])
  else
    .ok (json (.obj [("error", .str "Unknown GitHub route"),
           ("available", .arr [.str "/github/orgs", .str "/github/repos/:org",
             .str "/github/repo", .str "/github/file"])]) 404, [])

-- ============ STRIPE ============

/-- The `handleStripe` handler of the source.  Form bodies keep the key
order of the JavaScript object literals; `URLSearchParams` stringification
of a missing (`undefined`) field yields the string `undefined`.  Throws
are modelled where the source performs them: destructuring a null body
(before any call), `product.id` on a null product response (after the
product call, before the price call), `priceObj.id` on a null price
response (after the price call, before the link call), and `link.url` on
a null link response (after all three calls, while building the
response). -/
def handleStripe (req : Req) (o : Oracle) : HandlerResult :=
  if req.path = "/stripe/products" ∧ req.method = "GET" then
    .ok (json o.stripeProductsData 200, [.stripe "/products?limit=100" "GET" none])
  else if req.path = "/stripe/product" ∧ req.method = "POST" then
    match req.body with
    | none => .error (parseFailMsg, [])
    | some b =>
      if b.isNull then .error (nullBodyMsg, [])
      else
        let nameS := jOptStr (b.lookup "name")
        let descS := jOptStr ((b.lookup "description").orElse (fun _ => some (.str "")))
        let priceNum := match b.lookup "price" with
          | some v => jsToNum v
          | none => 0
        let currencyVal := (b.lookup "currency").getD (.str "usd")
        let recurringOpt := b.lookup "recurring"
        let product := o.stripeProduct
        let call1 := UpCall.stripe "/products" "POST"
          (some [("name", .fs nameS), ("description", .fs descS)])
        if product.isNull then .error (nullPropMsg, [call1])
        else
          let priceData : List (String × FormVal) :=
            [("product", .fs (jOptStr (product.lookup "id"))),
             ("unit_amount", .fi (jsRound (priceNum * 100))),
             ("currency", .fs (jsToStr currencyVal))] ++
            (if (recurringOpt.map jsTruthy).getD false then
               [("recurring[interval]", .fs (jOptStr recurringOpt))]
             else [])
          let priceObj := o.stripePrice
          let call2 := UpCall.stripe "/prices" "POST" (some priceData)
          if priceObj.isNull then .error (nullPropMsg, [call1, call2])
          else
            let call3 := UpCall.stripe "/payment_links" "POST"
              (some [("line_items[0][price]", .fs (jOptStr (priceObj.lookup "id"))),
                     ("line_items[0][quantity]", .fi 1)])
            let link := o.stripeLink
            if link.isNull then .error (nullPropMsg, [call1, call2, call3])
            else
              .ok (json (.obj
                     ([("product", .obj (jf product "id" "id" ++ jf product "name" "name")),
                       ("price", .obj (jf priceObj "id" "id" ++
                          jfOpt (b.lookup "price") "amount" ++ [("currency", currencyVal)]))] ++
                      jfOpt (link.lookup "url") "payment_link")) 200,
                   [call1, call2, call3])
  else if req.path = "/stripe/customers" ∧ req.method = "GET" then
    .ok (json (.arr (o.stripeCustomersData.map (fun c =>
           .obj (jf c "id" "id" ++ jf c "email" "email" ++ jf c "name" "name")))) 200,
         [.stripe "/customers?limit=100" "GET" none])
  else
    .ok (json (.obj [("error", .str "Unknown Stripe route"),
           ("available", .arr [.str "/stripe/products", .str "/stripe/product",
             .str "/stripe/customers"])]) 404, [])

-- ============ HUGGINGFACE ============

/-- The `handleHuggingFace` handler of the source. -/
def handleHuggingFace (req : Req) (o : Oracle) : HandlerResult :=
  if req.path = "/hf/models" ∧ req.method = "GET" then
    let search := req.q.getD ""
    .ok (json (.arr (o.hfModels.map (fun m =>
           .obj (jf m "id" "id" ++ jf m "downloads" "downloads" ++ jf m "likes" "likes")))) 200,
         [.hf ("/models?search=" ++ search ++ "&limit=20")])
  else if req.path = "/hf/spaces" ∧ req.method = "GET" then
    let search := req.q.getD ""
    .ok (json o.hfSpaces 200, [.hf ("/spaces?search=" ++ search ++ "&limit=20")])
  else
    .ok (json (.obj [("error", .str "Unknown HF route"),
           ("available", .arr [.str "/hf/models?q=", .str "/hf/spaces?q="])]) 404, [])

-- ============ CLOUDFLARE ============

/-- The `handleCloudflare` handler of the source, including the
`result.result?.map(...) || []` guard. -/
def handleCloudflare (req : Req) (o : Oracle) : HandlerResult :=
  if req.path = "/cf/workers" ∧ req.method = "GET" then
    .ok (json (.arr (match o.cfWorkers with
           | some l => l.map (fun w => .obj (jf w "id" "name" ++ jf w "modified_on" "modified"))
           | none => [])) 200,
         [.cf "/workers/scripts"])
  else if req.path = "/cf/kv" ∧ req.method = "GET" then
    .ok (json (.arr (match o.cfKv with
           | some l => l.map (fun ns => .obj (jf ns "id" "id" ++ jf ns "title" "title"))
           | none => [])) 200,
         [.cf "/storage/kv/namespaces"])
  else if req.path = "/cf/d1" ∧ req.method = "GET" then
    .ok (json (.arr (match o.cfD1 with
           | some l => l.map (fun db => .obj (jf db "uuid" "id" ++ jf db "name" "name"))
           | none => [])) 200,
         [.cf "/d1/database"])
  else
    .ok (json (.obj [("error", .str "Unknown CF route"),
           ("available", .arr [.str "/cf/workers", .str "/cf/kv", .str "/cf/d1"])]) 404, [])

-- ============ AGENTS ============

/-- The `handleAgents` handler of the source.  Destructuring a JSON-null
body in the create branch throws before the insert. -/
def handleAgents (req : Req) (o : Oracle) : HandlerResult :=
  if req.path = "/agents" ∧ req.method = "GET" then
    .ok (json (.arr (o.agentResults.getD [])) 200,
         [.d1run "SELECT * FROM agents LIMIT 100"])
  else if req.path = "/agents" ∧ req.method = "POST" then
    match req.body with
    | none => .error (parseFailMsg, [])
    | some b =>
      if b.isNull then .error (nullBodyMsg, [])
      else
        .ok (json (.obj ([("created", .bool true), ("id", .str o.uuid)] ++
               jfOpt (b.lookup "name") "name")) 200,
             [.d1run "INSERT INTO agents (id, name, type, capabilities, birthday, created_at) VALUES (?, ?, ?, ?, ?, ?)"])
  else if (matchOneSeg "/agents/" req.path).isSome ∧ req.method = "GET" then
    match o.agentById ((matchOneSeg "/agents/" req.path).getD "") with
    | some row => .ok (json row 200, [.d1run "SELECT * FROM agents WHERE id = ?"])
    | none => .ok (json (.obj [("error", .str "Agent not found")]) 404,
                   [.d1run "SELECT * FROM agents WHERE id = ?"])
  else
    .ok (json (.obj [("error", .str "Unknown agents route"),
           ("available", .arr [.str "/agents", .str "/agents/:id"])]) 404, [])

-- ============ NOTIFY ============

/-- JavaScript strict equality `channel === 'log'`. -/
def isLogChannel : Json → Bool
  | .str s => s == "log"
  | _ => false

/-- The `handleNotify` handler of the source.  Its channel loop is modelled
on the iterable shapes: an array iterates its elements; a string iterates
single characters, none of which strict-equals the string "log", so its
effect equals the empty list; absent defaults to ["log"]; any other value
is not iterable and throws. -/
def handleNotify (req : Req) (_o : Oracle) : HandlerResult :=
  if req.method ≠ "POST" then
    .ok (json (.obj [("error", .str "POST only")]) 405, [])
  else
    match req.body with
    | none => .error (parseFailMsg, [])
    | some b =>
      if b.isNull then .error (nullBodyMsg, [])
      else
        let msgS := jOptStr (b.lookup "message")
        match (b.lookup "channels").getD (.arr [.str "log"]) with
        | .arr channels =>
            let results : List (String × Json) :=
              if channels.any isLogChannel then [("log", .bool true)] else []
            .ok (json (.obj [("sent", .bool true), ("channels", .obj results)]) 200,
                 channels.filterMap (fun c =>
                   if isLogChannel c then some (.log ("[NOTIFY] " ++ msgS)) else none))
        | .str _ =>
            .ok (json (.obj [("sent", .bool true), ("channels", .obj [])]) 200, [])
        | _ => .error ("channels is not iterable", [])

-- ============ STATS ============

/-- The `handleStats` handler of the source. -/
def handleStats (o : Oracle) : Response × List UpCall :=
  (json (.obj
     [("timestamp", .str o.now),
      ("github", .obj [("orgs", .num 15), ("repos", .str "315+")]),
      ("cloudflare", .obj [("workers", .num 82), ("d1", .num 11), ("kv", .num 20)]),
      ("stripe", .obj [("account", .str "acct_1SUDM8ChUUSEbzyh")]),
      ("huggingface", .obj [("user", .str "blackroadio")])]) 200, [])

/-- The route dispatch inside the `try` block of `fetch`. -/
def route (req : Req) (o : Oracle) : HandlerResult :=
  if req.path = "/" ∨ req.path = "/health" then
    .ok (json (.obj [("status", .str "ok"),
           ("service", .str "blackroad-command-center"),
           ("version", .str "1.0.0")]) 200, [])
  else if startsWithJs req.path "/github" then handleGitHub req o
  else if startsWithJs req.path "/stripe" then handleStripe req o
  else if startsWithJs req.path "/hf" then handleHuggingFace req o
  else if startsWithJs req.path "/cf" then handleCloudflare req o
  else if startsWithJs req.path "/agents" then handleAgents req o
  else if startsWithJs req.path "/notify" then handleNotify req o
  else if req.path = "/stats" then .ok (handleStats o)
  else
    .ok (json (.obj [("error", .str "Not found"),
           ("routes", .arr [.str "/github", .str "/stripe", .str "/hf", .str "/cf",
             .str "/agents", .str "/notify", .str "/stats"])]) 404, [])

/-- The exported `fetch` entry point: OPTIONS preflight, then the routed
handler with the top-level `catch` converting a thrown message into a 500
response.  The trace on the error path is the list of upstream calls the
handler had already made before the throw. -/
def gateway (req : Req) (o : Oracle) : Response × List UpCall :=
  if req.method = "OPTIONS" then (preflightResp, [])
  else
    match route req o with
    | .ok out => out
    | .error e => (json (.obj [("error", .str e.1)]) 500, e.2)

/-- A fully concrete oracle used to instantiate universally quantified
theorems. -/
def o0 : Oracle where
  ghOrgs := []
  ghRepos := []
  ghCreateRepo := .obj []
  ghContents := .error ()
  ghWrite := .obj []
  stripeProductsData := .arr []
  stripeProduct := .obj [("id", .str "prod_1"), ("name", .str "Pro Plan")]
  stripePrice := .obj [("id", .str "price_1")]
  stripeLink := .obj [("url", .str "https://buy.stripe.com/x")]
  stripeCustomersData := []
  hfModels := []
  hfSpaces := .arr []
  cfWorkers := none
  cfKv := none
  cfD1 := none
  agentResults := some []
  agentById := fun _ => none
  uuid := "id-1"
  now := "2026-01-01T00:00:00.000Z"

example : (gateway ⟨"GET", "/zzz", none, none⟩ o0).1.status = 404 := rfl
example : (gateway ⟨"OPTIONS", "/zzz", none, none⟩ o0).1 = preflightResp := rfl
example : (gateway ⟨"GET", "/notify", none, none⟩ o0).1.status = 405 := rfl
example : (gateway ⟨"GET", "/githubextra", none, none⟩ o0).1.status = 404 := rfl
example : (gateway ⟨"GET", "/cf/workers", none, none⟩ o0).1.body = some (.arr []) := rfl
example : btoa "hi" = "aGk=" := rfl

-- ===== Routing helper lemmas =====

/-- The strict-equality channel test recognises exactly the JSON string
"log". -/
lemma isLogChannel_iff {c : Json} : isLogChannel c = true ↔ c = Json.str "log" := by
  cases c <;> simp [isLogChannel]

/-- Two string prefixes of the same path are comparable, so a path with
prefix `u` cannot also have a prefix `v` incomparable with `u`. -/
lemma swj_excl {p : String} (u v : String)
    (h1 : startsWithJs u v = false) (h2 : startsWithJs v u = false)
    (h : startsWithJs p u = true) : startsWithJs p v = false := by
  unfold startsWithJs at h1 h2 h ⊢
  rw [List.isPrefixOf_iff_prefix] at h
  rw [← Bool.not_eq_true, List.isPrefixOf_iff_prefix]
  intro hv
  rcases List.prefix_or_prefix_of_prefix hv h with hc | hc
  · have hb := List.isPrefixOf_iff_prefix.mpr hc
    rw [h1] at hb
    exact Bool.false_ne_true hb
  · have hb := List.isPrefixOf_iff_prefix.mpr hc
    rw [h2] at hb
    exact Bool.false_ne_true hb

/-- A path with a given string prefix is not a shorter fixed string. -/
lemma ne_of_swj {p v : String} (u : String)
    (h : startsWithJs p u = true) (hv : startsWithJs v u = false) : p ≠ v := by
  intro e
  rw [e, hv] at h
  exact Bool.false_ne_true h

lemma route_eq_github {req : Req} {o : Oracle}
    (h : startsWithJs req.path "/github" = true) :
    route req o = handleGitHub req o := by
  unfold route
  rw [if_neg (not_or.mpr ⟨ne_of_swj _ h (by decide), ne_of_swj _ h (by decide)⟩),
      if_pos h]

lemma route_eq_stripe {req : Req} {o : Oracle}
    (h : startsWithJs req.path "/stripe" = true) :
    route req o = handleStripe req o := by
  unfold route
  rw [if_neg (not_or.mpr ⟨ne_of_swj _ h (by decide), ne_of_swj _ h (by decide)⟩),
      if_neg (by simp [swj_excl "/stripe" "/github" (by decide) (by decide) h]),
      if_pos h]

lemma route_eq_hf {req : Req} {o : Oracle}
    (h : startsWithJs req.path "/hf" = true) :
    route req o = handleHuggingFace req o := by
  unfold route
  rw [if_neg (not_or.mpr ⟨ne_of_swj _ h (by decide), ne_of_swj _ h (by decide)⟩),
      if_neg (by simp [swj_excl "/hf" "/github" (by decide) (by decide) h]),
      if_neg (by simp [swj_excl "/hf" "/stripe" (by decide) (by decide) h]),
      if_pos h]

lemma route_eq_cf {req : Req} {o : Oracle}
    (h : startsWithJs req.path "/cf" = true) :
    route req o = handleCloudflare req o := by
  unfold route
  rw [if_neg (not_or.mpr ⟨ne_of_swj _ h (by decide), ne_of_swj _ h (by decide)⟩),
      if_neg (by simp [swj_excl "/cf" "/github" (by decide) (by decide) h]),
      if_neg (by simp [swj_excl "/cf" "/stripe" (by decide) (by decide) h]),
      if_neg (by simp [swj_excl "/cf" "/hf" (by decide) (by decide) h]),
      if_pos h]

lemma route_eq_agents {req : Req} {o : Oracle}
    (h : startsWithJs req.path "/agents" = true) :
    route req o = handleAgents req o := by
  unfold route
  rw [if_neg (not_or.mpr ⟨ne_of_swj _ h (by decide), ne_of_swj _ h (by decide)⟩),
      if_neg (by simp [swj_excl "/agents" "/github" (by decide) (by decide) h]),
      if_neg (by simp [swj_excl "/agents" "/stripe" (by decide) (by decide) h]),
      if_neg (by simp [swj_excl "/agents" "/hf" (by decide) (by decide) h]),
      if_neg (by simp [swj_excl "/agents" "/cf" (by decide) (by decide) h]),
      if_pos h]

lemma route_eq_notify {req : Req} {o : Oracle}
    (h : startsWithJs req.path "/notify" = true) :
    route req o = handleNotify req o := by
  unfold route
  rw [if_neg (not_or.mpr ⟨ne_of_swj _ h (by decide), ne_of_swj _ h (by decide)⟩),
      if_neg (by simp [swj_excl "/notify" "/github" (by decide) (by decide) h]),
      if_neg (by simp [swj_excl "/notify" "/stripe" (by decide) (by decide) h]),
      if_neg (by simp [swj_excl "/notify" "/hf" (by decide) (by decide) h]),
      if_neg (by simp [swj_excl "/notify" "/cf" (by decide) (by decide) h]),
      if_neg (by simp [swj_excl "/notify" "/agents" (by decide) (by decide) h]),
      if_pos h]

/-- Unfolding `jf` at a present property. -/
lemma jf_eq_some {j : Json} {k : String} {v : Json}
    (h : j.lookup k = some v) (out : String) : jf j k out = [(out, v)] := by
  unfold jf
  rw [h]

/-- A value known not to be JSON null fails the `isNull` test. -/
lemma isNull_false_of_ne {j : Json} (h : j ≠ Json.null) : j.isNull = false := by
  cases j
  case null => exact absurd rfl h
  all_goals rfl

/-- The gateway on a non-OPTIONS request is the routed result. -/
lemma gateway_routed {req : Req} {o : Oracle} (hm : req.method ≠ "OPTIONS") :
    gateway req o =
      (match route req o with
        | .ok out => out
        | .error e => (json (.obj [("error", .str e.1)]) 500, e.2)) := by
  unfold gateway
  rw [if_neg hm]

/-- A value with a present property is not JSON null. -/
lemma isNull_false_of_lookup {j : Json} {k : String} {v : Json}
    (h : j.lookup k = some v) : j.isNull = false := by
  cases j
  case null => exact Option.noConfusion h
  all_goals rfl

/-- A successful one-segment match implies the raw prefix holds. -/
lemma matchOneSeg_isPrefix {pre p id : String}
    (hm : matchOneSeg pre p = some id) :
    pre.data.isPrefixOf p.data = true := by
  unfold matchOneSeg at hm
  split at hm
  · assumption
  · exact absurd hm (by simp)

-- ===== Claim theorems =====

/-- C6: a POST /notify request with channels ["log", "unknown-channel"]
succeeds (status 200), reports the log channel as sent
(channels.log = true), and its channels object carries no entry for the
unknown channel name: an unrecognized channel never fails the request. -/
theorem c6_notify_unknown_channel_ignored :
    (gateway ⟨"POST", "/notify",
        some (.obj [("message", .str "hello"),
          ("channels", .arr [.str "log", .str "unknown-channel"])]), none⟩ o0).1 =
      json (.obj [("sent", .bool true),
        ("channels", .obj [("log", .bool true)])]) 200 ∧
    (Json.obj [("log", .bool true)]).lookup "unknown-channel" = none :=
  ⟨rfl, rfl⟩

/-- C9: POST /notify returns 200 with top-level sent = true for every
channels list, and when the list holds no "log" entry (in particular the
empty list or a list of only unrecognized names) the reported channels
object is empty — so sent = true does not indicate any delivery. -/
theorem c9_notify_always_sent (l : List Json) (o : Oracle) :
    ((gateway ⟨"POST", "/notify", some (.obj [("channels", .arr l)]), none⟩ o).1.status = 200 ∧
     ((gateway ⟨"POST", "/notify", some (.obj [("channels", .arr l)]), none⟩ o).1.body.bind
        (fun b => b.lookup "sent")) = some (.bool true)) ∧
    (Json.str "log" ∉ l →
      ((gateway ⟨"POST", "/notify", some (.obj [("channels", .arr l)]), none⟩ o).1.body.bind
        (fun b => b.lookup "channels")) = some (.obj [])) := by
  have hred : gateway ⟨"POST", "/notify", some (.obj [("channels", .arr l)]), none⟩ o =
      (json (.obj [("sent", .bool true),
         ("channels", .obj (if l.any isLogChannel then [("log", .bool true)] else []))]) 200,
       l.filterMap (fun c =>
         if isLogChannel c then some (.log ("[NOTIFY] undefined")) else none)) := rfl
  refine ⟨⟨?_, ?_⟩, ?_⟩
  · rw [hred]; rfl
  · rw [hred]
    rcases (l.any isLogChannel).eq_false_or_eq_true with ha | ha <;> simp [ha, json, Json.lookup]
  · intro hnl
    have ha : l.any isLogChannel = false := by
      rw [← Bool.not_eq_true, List.any_eq_true]
      rintro ⟨c, hc, hlog⟩
      exact hnl (isLogChannel_iff.mp hlog ▸ hc)
    rw [hred]
    simp [ha, json, Json.lookup]

/-- C9 witness: instantiated at the empty list and at a list holding only
an unrecognized channel name. -/
theorem c9_notify_always_sent_witness :
    ((gateway ⟨"POST", "/notify", some (.obj [("channels", .arr [])]), none⟩ o0).1.body.bind
       (fun b => b.lookup "channels")) = some (.obj []) ∧
    ((gateway ⟨"POST", "/notify", some (.obj [("channels", .arr [.str "sms"])]), none⟩ o0).1.body.bind
       (fun b => b.lookup "channels")) = some (.obj []) :=
  ⟨(c9_notify_always_sent [] o0).2 (by simp),
   (c9_notify_always_sent [.str "sms"] o0).2 (by simp)⟩

/-- C8: each of GET /cf/workers, /cf/kv and /cf/d1 returns an empty JSON
array with status 200 when the Cloudflare response carries no result
list. -/
theorem c8_cf_missing_result_empty (o : Oracle)
    (hw : o.cfWorkers = none) (hk : o.cfKv = none) (hd : o.cfD1 = none) :
    gateway ⟨"GET", "/cf/workers", none, none⟩ o =
      (json (.arr []) 200, [.cf "/workers/scripts"]) ∧
    gateway ⟨"GET", "/cf/kv", none, none⟩ o =
      (json (.arr []) 200, [.cf "/storage/kv/namespaces"]) ∧
    gateway ⟨"GET", "/cf/d1", none, none⟩ o =
      (json (.arr []) 200, [.cf "/d1/database"]) := by
  refine ⟨?_, ?_, ?_⟩
  · have : gateway ⟨"GET", "/cf/workers", none, none⟩ o =
        (json (.arr (match o.cfWorkers with
           | some ll => ll.map (fun w => .obj (jf w "id" "name" ++ jf w "modified_on" "modified"))
           | none => [])) 200, [.cf "/workers/scripts"]) := rfl
    rw [this, hw]
  · have : gateway ⟨"GET", "/cf/kv", none, none⟩ o =
        (json (.arr (match o.cfKv with
           | some ll => ll.map (fun ns => .obj (jf ns "id" "id" ++ jf ns "title" "title"))
           | none => [])) 200, [.cf "/storage/kv/namespaces"]) := rfl
    rw [this, hk]
  · have : gateway ⟨"GET", "/cf/d1", none, none⟩ o =
        (json (.arr (match o.cfD1 with
           | some ll => ll.map (fun db => .obj (jf db "uuid" "id" ++ jf db "name" "name"))
           | none => [])) 200, [.cf "/d1/database"]) := rfl
    rw [this, hd]

/-- C8 witness at a concrete oracle whose three result lists are all
missing. -/
theorem c8_cf_missing_result_empty_witness :
    gateway ⟨"GET", "/cf/workers", none, none⟩ o0 =
      (json (.arr []) 200, [.cf "/workers/scripts"]) ∧
    gateway ⟨"GET", "/cf/kv", none, none⟩ o0 =
      (json (.arr []) 200, [.cf "/storage/kv/namespaces"]) ∧
    gateway ⟨"GET", "/cf/d1", none, none⟩ o0 =
      (json (.arr []) 200, [.cf "/d1/database"]) :=
  c8_cf_missing_result_empty o0 rfl rfl rfl

/-- C7: GET /agents/{id} with no matching row returns status 404 with the
structured body with the single field error = "Agent not found", and
GET /agents over an empty store returns an empty JSON array with status
200. -/
theorem c7_agent_not_found_and_empty_list (o : Oracle) (p id : String)
    (hm : matchOneSeg "/agents/" p = some id)
    (hrow : o.agentById id = none) (hempty : o.agentResults = some []) :
    (gateway ⟨"GET", p, none, none⟩ o).1 =
      json (.obj [("error", .str "Agent not found")]) 404 ∧
    gateway ⟨"GET", "/agents", none, none⟩ o =
      (json (.arr []) 200, [.d1run "SELECT * FROM agents LIMIT 100"]) := by
  constructor
  · have h8 : ("/agents/" : String).data.isPrefixOf p.data = true := matchOneSeg_isPrefix hm
    have h7 : startsWithJs p "/agents" = true := by
      unfold startsWithJs
      rw [List.isPrefixOf_iff_prefix]
      exact List.IsPrefix.trans (by decide) (List.isPrefixOf_iff_prefix.mp h8)
    have hne : p ≠ "/agents" := by
      intro e
      rw [e] at h8
      exact absurd h8 (by decide)
    have hg : gateway ⟨"GET", p, none, none⟩ o =
        (match route ⟨"GET", p, none, none⟩ o with
          | .ok out => out
          | .error e => (json (.obj [("error", .str e.1)]) 500, e.2)) := rfl
    have ha : handleAgents ⟨"GET", p, none, none⟩ o =
        .ok (json (.obj [("error", .str "Agent not found")]) 404,
             [.d1run "SELECT * FROM agents WHERE id = ?"]) := by
      simp [handleAgents, hne, hm, hrow]
    rw [hg, route_eq_agents h7, ha]
  · have hred : gateway ⟨"GET", "/agents", none, none⟩ o =
        (json (.arr (o.agentResults.getD [])) 200, [.d1run "SELECT * FROM agents LIMIT 100"]) := rfl
    rw [hred, hempty]
    rfl

/-- C7 witness at the concrete path /agents/a1 and an oracle whose store
is empty. -/
theorem c7_agent_not_found_and_empty_list_witness :
    (gateway ⟨"GET", "/agents/a1", none, none⟩ o0).1 =
      json (.obj [("error", .str "Agent not found")]) 404 ∧
    gateway ⟨"GET", "/agents", none, none⟩ o0 =
      (json (.arr []) 200, [.d1run "SELECT * FROM agents LIMIT 100"]) :=
  c7_agent_not_found_and_empty_list o0 "/agents/a1" "a1" rfl rfl rfl

/-- C3: in POST /stripe/product the upstream minor-unit amount is
`Math.round(price * 100)`, i.e. multiply by 100 and round to the nearest
integer with the deterministic half-up rule floor(x + 1/2); for price
29.99 the amount passed upstream is 2999, and at the half-unit input
10.005 the rule (on the exact decimal value) deterministically yields
1001.  The hypotheses pin the product and price responses to non-null
values, since on a null response the program throws at the `.id` access
before the next call is issued. -/
theorem c3_unit_amount_rounding (p : ℚ) (o : Oracle)
    (hprod : o.stripeProduct ≠ Json.null) (hprice : o.stripePrice ≠ Json.null) :
    (gateway ⟨"POST", "/stripe/product", some (.obj [("price", .num p)]), none⟩ o).2 =
      [.stripe "/products" "POST"
         (some [("name", .fs "undefined"), ("description", .fs "")]),
       .stripe "/prices" "POST"
         (some [("product", .fs (jOptStr (o.stripeProduct.lookup "id"))),
                ("unit_amount", .fi ⌊p * 100 + 1/2⌋),
                ("currency", .fs "usd")]),
       .stripe "/payment_links" "POST"
         (some [("line_items[0][price]", .fs (jOptStr (o.stripePrice.lookup "id"))),
                ("line_items[0][quantity]", .fi 1)])] ∧
    jsRound ((2999 / 100 : ℚ) * 100) = 2999 ∧
    jsRound ((10005 / 1000 : ℚ) * 100) = 1001 := by
  have hpn : o.stripeProduct.isNull = false := isNull_false_of_ne hprod
  have hprn : o.stripePrice.isNull = false := isNull_false_of_ne hprice
  refine ⟨?_, ?_, ?_⟩
  · have hh : handleStripe ⟨"POST", "/stripe/product", some (.obj [("price", .num p)]), none⟩ o =
        (if o.stripeLink.isNull = true then
           .error (nullPropMsg,
             [.stripe "/products" "POST"
                (some [("name", .fs "undefined"), ("description", .fs "")]),
              .stripe "/prices" "POST"
                (some [("product", .fs (jOptStr (o.stripeProduct.lookup "id"))),
                       ("unit_amount", .fi ⌊p * 100 + 1/2⌋),
                       ("currency", .fs "usd")]),
              .stripe "/payment_links" "POST"
                (some [("line_items[0][price]", .fs (jOptStr (o.stripePrice.lookup "id"))),
                       ("line_items[0][quantity]", .fi 1)])])
         else
           .ok (json (.obj
                  ([("product", .obj (jf o.stripeProduct "id" "id" ++
                      jf o.stripeProduct "name" "name")),
                    ("price", .obj ((jf o.stripePrice "id" "id" ++ [("amount", Json.num p)]) ++
                      [("currency", Json.str "usd")]))] ++
                   jfOpt (o.stripeLink.lookup "url") "payment_link")) 200,
                [.stripe "/products" "POST"
                   (some [("name", .fs "undefined"), ("description", .fs "")]),
                 .stripe "/prices" "POST"
                   (some [("product", .fs (jOptStr (o.stripeProduct.lookup "id"))),
                          ("unit_amount", .fi ⌊p * 100 + 1/2⌋),
                          ("currency", .fs "usd")]),
                 .stripe "/payment_links" "POST"
                   (some [("line_items[0][price]", .fs (jOptStr (o.stripePrice.lookup "id"))),
                          ("line_items[0][quantity]", .fi 1)])])) := by
      show (if o.stripeProduct.isNull = true then _ else _) = _
      rw [hpn]
      show (if o.stripePrice.isNull = true then _ else _) = _
      rw [hprn]
      rfl
    rw [gateway_routed (show ("POST" : String) ≠ "OPTIONS" by decide),
        route_eq_stripe (by rfl), hh]
    cases hl : o.stripeLink.isNull <;> rfl
  · show ⌊(2999 / 100 : ℚ) * 100 + 1 / 2⌋ = 2999
    norm_num
  · show ⌊(10005 / 1000 : ℚ) * 100 + 1 / 2⌋ = 1001
    norm_num

/-- C3 witness: the rounding theorem applied at price 29.99 with a
concrete oracle whose product and price responses are objects. -/
theorem c3_unit_amount_rounding_witness :
    (gateway ⟨"POST", "/stripe/product", some (.obj [("price", .num (2999 / 100))]), none⟩ o0).2 =
      [.stripe "/products" "POST"
         (some [("name", .fs "undefined"), ("description", .fs "")]),
       .stripe "/prices" "POST"
         (some [("product", .fs (jOptStr (o0.stripeProduct.lookup "id"))),
                ("unit_amount", .fi ⌊(2999 / 100 : ℚ) * 100 + 1/2⌋),
                ("currency", .fs "usd")]),
       .stripe "/payment_links" "POST"
         (some [("line_items[0][price]", .fs (jOptStr (o0.stripePrice.lookup "id"))),
                ("line_items[0][quantity]", .fi 1)])] :=
  (c3_unit_amount_rounding (2999 / 100) o0
    (fun h => Json.noConfusion h) (fun h => Json.noConfusion h)).1

/-- The concrete request of the C2 scenario: POST /stripe/product with
name "Pro Plan", price 29.99 and recurring "month". -/
def stripeScenarioReq : Req :=
  ⟨"POST", "/stripe/product",
   some (.obj [("name", .str "Pro Plan"), ("price", .num (2999 / 100)),
               ("recurring", .str "month")]), none⟩

/-- C2: the Pro Plan scenario issues exactly three upstream calls in
order — product creation, then price creation carrying unit_amount 2999
and recurring[interval] month and referencing the returned product id,
then payment-link creation referencing the returned price id — and the
response carries product.id, price.amount = 29.99 and the payment_link
URL, with status 200. -/
theorem c2_stripe_product_scenario (o : Oracle) (pid prid : String) (lurl : Json)
    (h1 : o.stripeProduct.lookup "id" = some (.str pid))
    (h2 : o.stripePrice.lookup "id" = some (.str prid))
    (h3 : o.stripeLink.lookup "url" = some lurl) :
    (gateway stripeScenarioReq o).2 =
      [.stripe "/products" "POST"
         (some [("name", .fs "Pro Plan"), ("description", .fs "")]),
       .stripe "/prices" "POST"
         (some [("product", .fs pid), ("unit_amount", .fi 2999),
                ("currency", .fs "usd"), ("recurring[interval]", .fs "month")]),
       .stripe "/payment_links" "POST"
         (some [("line_items[0][price]", .fs prid), ("line_items[0][quantity]", .fi 1)])] ∧
    ((gateway stripeScenarioReq o).1.body.bind (fun r =>
       (r.lookup "product").bind (fun pr => pr.lookup "id"))) = some (.str pid) ∧
    ((gateway stripeScenarioReq o).1.body.bind (fun r =>
       (r.lookup "price").bind (fun pr => pr.lookup "amount"))) = some (.num (2999 / 100)) ∧
    ((gateway stripeScenarioReq o).1.body.bind (fun r =>
       r.lookup "payment_link")) = some lurl ∧
    (gateway stripeScenarioReq o).1.status = 200 := by
  have hpn : o.stripeProduct.isNull = false := isNull_false_of_lookup h1
  have hprn : o.stripePrice.isNull = false := isNull_false_of_lookup h2
  have hln : o.stripeLink.isNull = false := isNull_false_of_lookup h3
  have hh : handleStripe stripeScenarioReq o =
      .ok (json (.obj
         ([("product", .obj (jf o.stripeProduct "id" "id" ++ jf o.stripeProduct "name" "name")),
           ("price", .obj ((jf o.stripePrice "id" "id" ++
              [("amount", .num (2999 / 100))]) ++ [("currency", .str "usd")]))] ++
          jfOpt (o.stripeLink.lookup "url") "payment_link")) 200,
       [.stripe "/products" "POST"
          (some [("name", .fs "Pro Plan"), ("description", .fs "")]),
        .stripe "/prices" "POST"
          (some [("product", .fs (jOptStr (o.stripeProduct.lookup "id"))),
                 ("unit_amount", .fi (jsRound ((2999 / 100 : ℚ) * 100))),
                 ("currency", .fs "usd"),
                 ("recurring[interval]", .fs "month")]),
        .stripe "/payment_links" "POST"
          (some [("line_items[0][price]", .fs (jOptStr (o.stripePrice.lookup "id"))),
                 ("line_items[0][quantity]", .fi 1)])]) := by
    show (if o.stripeProduct.isNull = true then _ else _) = _
    rw [hpn]
    show (if o.stripePrice.isNull = true then _ else _) = _
    rw [hprn]
    show (if o.stripeLink.isNull = true then _ else _) = _
    rw [hln]
    rfl
  have hred : gateway stripeScenarioReq o =
      (json (.obj
         ([("product", .obj (jf o.stripeProduct "id" "id" ++ jf o.stripeProduct "name" "name")),
           ("price", .obj ((jf o.stripePrice "id" "id" ++
              [("amount", .num (2999 / 100))]) ++ [("currency", .str "usd")]))] ++
          jfOpt (o.stripeLink.lookup "url") "payment_link")) 200,
       [.stripe "/products" "POST"
          (some [("name", .fs "Pro Plan"), ("description", .fs "")]),
        .stripe "/prices" "POST"
          (some [("product", .fs (jOptStr (o.stripeProduct.lookup "id"))),
                 ("unit_amount", .fi (jsRound ((2999 / 100 : ℚ) * 100))),
                 ("currency", .fs "usd"),
                 ("recurring[interval]", .fs "month")]),
        .stripe "/payment_links" "POST"
          (some [("line_items[0][price]", .fs (jOptStr (o.stripePrice.lookup "id"))),
                 ("line_items[0][quantity]", .fi 1)])]) := by
    rw [gateway_routed (by decide), route_eq_stripe (by rfl), hh]
  have hround : jsRound ((2999 / 100 : ℚ) * 100) = 2999 := by norm_num [jsRound]
  refine ⟨?_, ?_, ?_, ?_, ?_⟩
  · rw [hred, h1, h2, hround]
    rfl
  · rw [hred, jf_eq_some h1 "id"]
    rfl
  · rw [hred, jf_eq_some h2 "id"]
    rfl
  · rw [hred, h3]
    rfl
  · rw [hred]
    rfl

/-- C2 witness: the scenario evaluated at a concrete oracle. -/
theorem c2_stripe_product_scenario_witness :
    (gateway stripeScenarioReq o0).2 =
      [.stripe "/products" "POST"
         (some [("name", .fs "Pro Plan"), ("description", .fs "")]),
       .stripe "/prices" "POST"
         (some [("product", .fs "prod_1"), ("unit_amount", .fi 2999),
                ("currency", .fs "usd"), ("recurring[interval]", .fs "month")]),
       .stripe "/payment_links" "POST"
         (some [("line_items[0][price]", .fs "price_1"), ("line_items[0][quantity]", .fi 1)])] :=
  (c2_stripe_product_scenario o0 "prod_1" "price_1" (.str "https://buy.stripe.com/x")
    rfl rfl rfl).1

-- ===== Response envelope (C5) =====

/-- The uniform success/error envelope: the CORS header set plus the JSON
content type, and a present (pretty-printed JSON) body. -/
def isEnveloped (r : Response) : Prop :=
  r.headers = corsHeaders ++ [("Content-Type", "application/json")] ∧ r.body.isSome = true

lemma handleGitHub_env {req : Req} {o : Oracle} {r : Response} {cs : List UpCall}
    (h : handleGitHub req o = .ok (r, cs)) : isEnveloped r := by
  unfold handleGitHub at h
  repeat' split at h
  all_goals first
    | (cases h; exact ⟨rfl, rfl⟩)
    | (exact absurd h (by simp))

lemma handleStripe_env {req : Req} {o : Oracle} {r : Response} {cs : List UpCall}
    (h : handleStripe req o = .ok (r, cs)) : isEnveloped r := by
  unfold handleStripe at h
  simp only [] at h
  repeat' split at h
  all_goals first
    | (cases h; exact ⟨rfl, rfl⟩)
    | (exact absurd h (by simp))

lemma handleHuggingFace_env {req : Req} {o : Oracle} {r : Response} {cs : List UpCall}
    (h : handleHuggingFace req o = .ok (r, cs)) : isEnveloped r := by
  unfold handleHuggingFace at h
  repeat' split at h
  all_goals first
    | (cases h; exact ⟨rfl, rfl⟩)
    | (exact absurd h (by simp))

lemma handleCloudflare_env {req : Req} {o : Oracle} {r : Response} {cs : List UpCall}
    (h : handleCloudflare req o = .ok (r, cs)) : isEnveloped r := by
  unfold handleCloudflare at h
  repeat' split at h
  all_goals first
    | (cases h; exact ⟨rfl, rfl⟩)
    | (exact absurd h (by simp))

lemma handleAgents_env {req : Req} {o : Oracle} {r : Response} {cs : List UpCall}
    (h : handleAgents req o = .ok (r, cs)) : isEnveloped r := by
  unfold handleAgents at h
  repeat' split at h
  all_goals first
    | (cases h; exact ⟨rfl, rfl⟩)
    | (exact absurd h (by simp))

lemma handleNotify_env {req : Req} {o : Oracle} {r : Response} {cs : List UpCall}
    (h : handleNotify req o = .ok (r, cs)) : isEnveloped r := by
  unfold handleNotify at h
  repeat' split at h
  all_goals first
    | (cases h; exact ⟨rfl, rfl⟩)
    | (exact absurd h (by simp))

lemma route_env {req : Req} {o : Oracle} {r : Response} {cs : List UpCall}
    (h : route req o = .ok (r, cs)) : isEnveloped r := by
  unfold route handleStats at h
  repeat' split at h
  all_goals first
    | (cases h; exact ⟨rfl, rfl⟩)
    | (exact handleGitHub_env h)
    | (exact handleStripe_env h)
    | (exact handleHuggingFace_env h)
    | (exact handleCloudflare_env h)
    | (exact handleAgents_env h)
    | (exact handleNotify_env h)
    | (exact absurd h (by simp))

/-- C5 counterexample: the OPTIONS preflight response has an empty body
(it is not JSON) and does not carry the Content-Type header, contradicting
the claim that every response — preflight included — is pretty-printed
JSON with the Content-Type header. -/
theorem c5_counterexample :
    (gateway ⟨"OPTIONS", "/stats", none, none⟩ o0).1.body = none ∧
    ("Content-Type", "application/json") ∉
      (gateway ⟨"OPTIONS", "/stats", none, none⟩ o0).1.headers :=
  ⟨rfl, by decide⟩

/-- C5 (amended): every non-preflight response produced by the gateway —
success and error alike — is pretty-printed JSON (a present body,
serialized by the shared envelope) and carries the fixed CORS-permissive
header set together with Content-Type application/json; the OPTIONS
preflight response instead carries exactly the CORS headers with an empty
body. -/
theorem c5_envelope_amended (req : Req) (o : Oracle) :
    (req.method ≠ "OPTIONS" →
      (gateway req o).1.headers = corsHeaders ++ [("Content-Type", "application/json")] ∧
      ((gateway req o).1.body).isSome = true) ∧
    (req.method = "OPTIONS" → (gateway req o).1 = preflightResp) := by
  constructor
  · intro hm
    have hgw : gateway req o =
        (match route req o with
          | .ok out => out
          | .error e => (json (.obj [("error", .str e.1)]) 500, e.2)) := by
      unfold gateway
      rw [if_neg hm]
    rw [hgw]
    cases hro : route req o with
    | ok out => exact @route_env req o out.1 out.2 (by rw [hro])
    | error e => exact ⟨rfl, rfl⟩
  · intro hm
    unfold gateway
    rw [if_pos hm]

/-- C5 witness: a routed request and a preflight request, both concrete. -/
theorem c5_envelope_amended_witness :
    ((gateway ⟨"GET", "/stats", none, none⟩ o0).1.headers =
       corsHeaders ++ [("Content-Type", "application/json")] ∧
     ((gateway ⟨"GET", "/stats", none, none⟩ o0).1.body).isSome = true) ∧
    (gateway ⟨"OPTIONS", "/x", none, none⟩ o0).1 = preflightResp :=
  ⟨(c5_envelope_amended ⟨"GET", "/stats", none, none⟩ o0).1 (by decide),
   (c5_envelope_amended ⟨"OPTIONS", "/x", none, none⟩ o0).2 rfl⟩

-- ===== Routing fallthrough (C4, C10) =====

/-- The exact route+method pairs the GitHub group serves. -/
def ghRouteHit (req : Req) : Prop :=
  (req.path = "/github/orgs" ∧ req.method = "GET") ∨
  ((matchOneSeg "/github/repos/" req.path).isSome = true ∧ req.method = "GET") ∨
  (req.path = "/github/repo" ∧ req.method = "POST") ∨
  (req.path = "/github/file" ∧ req.method = "POST")

/-- The exact route+method pairs the Stripe group serves. -/
def stripeRouteHit (req : Req) : Prop :=
  (req.path = "/stripe/products" ∧ req.method = "GET") ∨
  (req.path = "/stripe/product" ∧ req.method = "POST") ∨
  (req.path = "/stripe/customers" ∧ req.method = "GET")

/-- The exact route+method pairs the HuggingFace group serves. -/
def hfRouteHit (req : Req) : Prop :=
  (req.path = "/hf/models" ∧ req.method = "GET") ∨
  (req.path = "/hf/spaces" ∧ req.method = "GET")

/-- The exact route+method pairs the Cloudflare group serves. -/
def cfRouteHit (req : Req) : Prop :=
  (req.path = "/cf/workers" ∧ req.method = "GET") ∨
  (req.path = "/cf/kv" ∧ req.method = "GET") ∨
  (req.path = "/cf/d1" ∧ req.method = "GET")

/-- The exact route+method pairs the agents group serves. -/
def agentsRouteHit (req : Req) : Prop :=
  (req.path = "/agents" ∧ req.method = "GET") ∨
  (req.path = "/agents" ∧ req.method = "POST") ∨
  ((matchOneSeg "/agents/" req.path).isSome = true ∧ req.method = "GET")

/-- The GitHub-scoped 404 response. -/
def ghRoutes404 : Response :=
  json (.obj [("error", .str "Unknown GitHub route"),
    ("available", .arr [.str "/github/orgs", .str "/github/repos/:org",
      .str "/github/repo", .str "/github/file"])]) 404

/-- The Stripe-scoped 404 response. -/
def stripeRoutes404 : Response :=
  json (.obj [("error", .str "Unknown Stripe route"),
    ("available", .arr [.str "/stripe/products", .str "/stripe/product",
      .str "/stripe/customers"])]) 404

/-- The HuggingFace-scoped 404 response. -/
def hfRoutes404 : Response :=
  json (.obj [("error", .str "Unknown HF route"),
    ("available", .arr [.str "/hf/models?q=", .str "/hf/spaces?q="])]) 404

/-- The Cloudflare-scoped 404 response. -/
def cfRoutes404 : Response :=
  json (.obj [("error", .str "Unknown CF route"),
    ("available", .arr [.str "/cf/workers", .str "/cf/kv", .str "/cf/d1"])]) 404

/-- The agents-scoped 404 response. -/
def agentsRoutes404 : Response :=
  json (.obj [("error", .str "Unknown agents route"),
    ("available", .arr [.str "/agents", .str "/agents/:id"])]) 404

/-- The global 404 response listing the known prefixes. -/
def globalRoutes404 : Response :=
  json (.obj [("error", .str "Not found"),
    ("routes", .arr [.str "/github", .str "/stripe", .str "/hf", .str "/cf",
      .str "/agents", .str "/notify", .str "/stats"])]) 404

/-- The notify method-not-allowed response. -/
def postOnly405 : Response := json (.obj [("error", .str "POST only")]) 405

lemma handleGitHub_404 {req : Req} {o : Oracle} (h : ¬ghRouteHit req) :
    handleGitHub req o = .ok (ghRoutes404, []) := by
  have h1 : ¬(req.path = "/github/orgs" ∧ req.method = "GET") :=
    fun hc => h (Or.inl hc)
  have h2 : ¬((matchOneSeg "/github/repos/" req.path).isSome = true ∧ req.method = "GET") :=
    fun hc => h (Or.inr (Or.inl hc))
  have h3 : ¬(req.path = "/github/repo" ∧ req.method = "POST") :=
    fun hc => h (Or.inr (Or.inr (Or.inl hc)))
  have h4 : ¬(req.path = "/github/file" ∧ req.method = "POST") :=
    fun hc => h (Or.inr (Or.inr (Or.inr hc)))
  unfold handleGitHub
  rw [if_neg h1, if_neg h2, if_neg h3, if_neg h4]
  rfl

lemma handleStripe_404 {req : Req} {o : Oracle} (h : ¬stripeRouteHit req) :
    handleStripe req o = .ok (stripeRoutes404, []) := by
  have h1 : ¬(req.path = "/stripe/products" ∧ req.method = "GET") :=
    fun hc => h (Or.inl hc)
  have h2 : ¬(req.path = "/stripe/product" ∧ req.method = "POST") :=
    fun hc => h (Or.inr (Or.inl hc))
  have h3 : ¬(req.path = "/stripe/customers" ∧ req.method = "GET") :=
    fun hc => h (Or.inr (Or.inr hc))
  unfold handleStripe
  rw [if_neg h1, if_neg h2, if_neg h3]
  rfl

lemma handleHuggingFace_404 {req : Req} {o : Oracle} (h : ¬hfRouteHit req) :
    handleHuggingFace req o = .ok (hfRoutes404, []) := by
  have h1 : ¬(req.path = "/hf/models" ∧ req.method = "GET") :=
    fun hc => h (Or.inl hc)
  have h2 : ¬(req.path = "/hf/spaces" ∧ req.method = "GET") :=
    fun hc => h (Or.inr hc)
  unfold handleHuggingFace
  rw [if_neg h1, if_neg h2]
  rfl

lemma handleCloudflare_404 {req : Req} {o : Oracle} (h : ¬cfRouteHit req) :
    handleCloudflare req o = .ok (cfRoutes404, []) := by
  have h1 : ¬(req.path = "/cf/workers" ∧ req.method = "GET") :=
    fun hc => h (Or.inl hc)
  have h2 : ¬(req.path = "/cf/kv" ∧ req.method = "GET") :=
    fun hc => h (Or.inr (Or.inl hc))
  have h3 : ¬(req.path = "/cf/d1" ∧ req.method = "GET") :=
    fun hc => h (Or.inr (Or.inr hc))
  unfold handleCloudflare
  rw [if_neg h1, if_neg h2, if_neg h3]
  rfl

lemma handleAgents_404 {req : Req} {o : Oracle} (h : ¬agentsRouteHit req) :
    handleAgents req o = .ok (agentsRoutes404, []) := by
  have h1 : ¬(req.path = "/agents" ∧ req.method = "GET") :=
    fun hc => h (Or.inl hc)
  have h2 : ¬(req.path = "/agents" ∧ req.method = "POST") :=
    fun hc => h (Or.inr (Or.inl hc))
  have h3 : ¬((matchOneSeg "/agents/" req.path).isSome = true ∧ req.method = "GET") :=
    fun hc => h (Or.inr (Or.inr hc))
  unfold handleAgents
  rw [if_neg h1, if_neg h2, if_neg h3]
  rfl

lemma handleNotify_405 {req : Req} {o : Oracle} (h : req.method ≠ "POST") :
    handleNotify req o = .ok (postOnly405, []) := by
  unfold handleNotify
  rw [if_pos h]
  rfl

/-- C4 counterexample: GET /notify matches the notify group prefix while
no exact route+method in that group matches (notify serves only POST),
yet the response is a 405, not a scoped 404; and an OPTIONS request to an
unknown path is answered by the CORS preflight with status 200, not the
global 404. -/
theorem c4_counterexample :
    startsWithJs "/notify" "/notify" = true ∧
    (gateway ⟨"GET", "/notify", none, none⟩ o0).1.status = 405 ∧
    (gateway ⟨"OPTIONS", "/unknown", none, none⟩ o0).1.status = 200 :=
  ⟨rfl, rfl, rfl⟩

/-- C4 (amended): for non-OPTIONS requests — (a) a path matching no known
prefix (no group prefix, nor the root/health/stats paths) receives the
global 404 listing the known prefixes; (b) a path matching the github,
stripe, hf, cf or agents group prefix with no exact route+method match in
that group receives that group's scoped 404 route list; (c) the notify
group deviates: a non-POST request there receives a 405 "POST only"
response instead of a scoped 404.  OPTIONS requests are answered by the
CORS preflight before routing. -/
theorem c4_routing_amended (req : Req) (o : Oracle) (hm : req.method ≠ "OPTIONS") :
    ((startsWithJs req.path "/github" = false ∧ startsWithJs req.path "/stripe" = false ∧
      startsWithJs req.path "/hf" = false ∧ startsWithJs req.path "/cf" = false ∧
      startsWithJs req.path "/agents" = false ∧ startsWithJs req.path "/notify" = false ∧
      req.path ≠ "/" ∧ req.path ≠ "/health" ∧ req.path ≠ "/stats") →
      gateway req o = (globalRoutes404, [])) ∧
    (startsWithJs req.path "/github" = true → ¬ghRouteHit req →
      gateway req o = (ghRoutes404, [])) ∧
    (startsWithJs req.path "/stripe" = true → ¬stripeRouteHit req →
      gateway req o = (stripeRoutes404, [])) ∧
    (startsWithJs req.path "/hf" = true → ¬hfRouteHit req →
      gateway req o = (hfRoutes404, [])) ∧
    (startsWithJs req.path "/cf" = true → ¬cfRouteHit req →
      gateway req o = (cfRoutes404, [])) ∧
    (startsWithJs req.path "/agents" = true → ¬agentsRouteHit req →
      gateway req o = (agentsRoutes404, [])) ∧
    (startsWithJs req.path "/notify" = true → req.method ≠ "POST" →
      gateway req o = (postOnly405, [])) := by
  refine ⟨?_, ?_, ?_, ?_, ?_, ?_, ?_⟩
  · rintro ⟨hg, hs, hh, hc, ha, hn, hr, hhe, hst⟩
    rw [gateway_routed hm]
    unfold route
    rw [if_neg (not_or.mpr ⟨hr, hhe⟩),
        if_neg (by simp [hg]), if_neg (by simp [hs]), if_neg (by simp [hh]),
        if_neg (by simp [hc]), if_neg (by simp [ha]), if_neg (by simp [hn]),
        if_neg hst]
    rfl
  · intro hp hroute
    rw [gateway_routed hm, route_eq_github hp, handleGitHub_404 hroute]
  · intro hp hroute
    rw [gateway_routed hm, route_eq_stripe hp, handleStripe_404 hroute]
  · intro hp hroute
    rw [gateway_routed hm, route_eq_hf hp, handleHuggingFace_404 hroute]
  · intro hp hroute
    rw [gateway_routed hm, route_eq_cf hp, handleCloudflare_404 hroute]
  · intro hp hroute
    rw [gateway_routed hm, route_eq_agents hp, handleAgents_404 hroute]
  · intro hp hpost
    rw [gateway_routed hm, route_eq_notify hp, handleNotify_405 hpost]

/-- C4 witness: one concrete request for each routing outcome. -/
theorem c4_routing_amended_witness :
    gateway ⟨"GET", "/nope", none, none⟩ o0 = (globalRoutes404, []) ∧
    gateway ⟨"GET", "/github/zzz", none, none⟩ o0 = (ghRoutes404, []) ∧
    gateway ⟨"DELETE", "/stripe/product", none, none⟩ o0 = (stripeRoutes404, []) ∧
    gateway ⟨"GET", "/hf/other", none, none⟩ o0 = (hfRoutes404, []) ∧
    gateway ⟨"POST", "/cf/workers", none, none⟩ o0 = (cfRoutes404, []) ∧
    gateway ⟨"PUT", "/agents", none, none⟩ o0 = (agentsRoutes404, []) ∧
    gateway ⟨"GET", "/notify", none, none⟩ o0 = (postOnly405, []) :=
  ⟨(c4_routing_amended ⟨"GET", "/nope", none, none⟩ o0 (by decide)).1 (by decide),
   (c4_routing_amended ⟨"GET", "/github/zzz", none, none⟩ o0 (by decide)).2.1 rfl
     (by unfold ghRouteHit; decide),
   (c4_routing_amended ⟨"DELETE", "/stripe/product", none, none⟩ o0 (by decide)).2.2.1 rfl
     (by unfold stripeRouteHit; decide),
   (c4_routing_amended ⟨"GET", "/hf/other", none, none⟩ o0 (by decide)).2.2.2.1 rfl
     (by unfold hfRouteHit; decide),
   (c4_routing_amended ⟨"POST", "/cf/workers", none, none⟩ o0 (by decide)).2.2.2.2.1 rfl
     (by unfold cfRouteHit; decide),
   (c4_routing_amended ⟨"PUT", "/agents", none, none⟩ o0 (by decide)).2.2.2.2.2.1 rfl
     (by unfold agentsRouteHit; decide),
   (c4_routing_amended ⟨"GET", "/notify", none, none⟩ o0 (by decide)).2.2.2.2.2.2 rfl
     (by decide)⟩

-- ===== Raw-prefix dispatch (C10) =====

lemma swj_append_self (base s : String) : startsWithJs (base ++ s) base = true := by
  unfold startsWithJs
  rw [List.isPrefixOf_iff_prefix, String.data_append]
  exact List.prefix_append base.data s.data

lemma append_ne_self {base s : String} (hs0 : s ≠ "") : base ++ s ≠ base := by
  intro e
  apply hs0
  have hd : base.data ++ s.data = base.data ++ ([] : List Char) := by
    rw [← String.data_append, e, List.append_nil]
  exact String.ext (List.append_cancel_left hd)

lemma suffix_of_append_eq {base s : String} (rest lit : String)
    (hc : base ++ s = lit) (he : base ++ rest = lit) : s = rest := by
  have hbs : base ++ s = base ++ rest := hc.trans he.symm
  have hd : s.data = rest.data := List.append_cancel_left
    (by rw [← String.data_append, ← String.data_append, hbs])
  exact String.ext hd

lemma matchOneSeg_append_none (base rest s : String)
    (hs1 : s.data.head? ≠ some '/') (hr : rest.data.head? = some '/') :
    matchOneSeg (base ++ rest) (base ++ s) = none := by
  have hc : ¬((base ++ rest).data.isPrefixOf (base ++ s).data = true) := by
    intro hx
    have h2 := List.isPrefixOf_iff_prefix.mp hx
    rw [String.data_append, String.data_append, List.prefix_append_right_inj] at h2
    obtain ⟨t, ht⟩ := h2
    apply hs1
    cases hrd : rest.data with
    | nil =>
        rw [hrd] at hr
        simp at hr
    | cons a tl =>
        rw [← ht, hrd]
        rw [hrd] at hr
        simpa using hr
  unfold matchOneSeg
  rw [if_neg hc]

/-- C10 counterexample: a path extending a group prefix without a slash is
indeed dispatched into the group, but for the notify group the result is
not a scoped 404 list: GET /notifyzz receives the 405 "POST only"
response; and under OPTIONS the preflight answers before any dispatch. -/
theorem c10_counterexample :
    (gateway ⟨"GET", "/notifyzz", none, none⟩ o0).1.status = 405 ∧
    (gateway ⟨"OPTIONS", "/githubextra", none, none⟩ o0).1 = preflightResp :=
  ⟨rfl, rfl⟩

/-- C10 (amended): group dispatch tests a raw string prefix, not a path
segment: for every non-OPTIONS request whose path extends a group prefix
by a nonempty suffix not starting with a slash (e.g. /githubextra,
/agentsfoo), the request is dispatched into that group's handler; for the
github, stripe, hf, cf and agents groups it receives that group's scoped
404 route list (never the global 404), while for the notify group it
receives the handler's 405 "POST only" response when the method is not
POST. -/
theorem c10_prefix_dispatch_amended (m s : String) (b : Option Json) (qs : Option String)
    (o : Oracle) (hm : m ≠ "OPTIONS") (hs0 : s ≠ "") (hs1 : s.data.head? ≠ some '/') :
    gateway ⟨m, "/github" ++ s, b, qs⟩ o = (ghRoutes404, []) ∧
    gateway ⟨m, "/stripe" ++ s, b, qs⟩ o = (stripeRoutes404, []) ∧
    gateway ⟨m, "/hf" ++ s, b, qs⟩ o = (hfRoutes404, []) ∧
    gateway ⟨m, "/cf" ++ s, b, qs⟩ o = (cfRoutes404, []) ∧
    gateway ⟨m, "/agents" ++ s, b, qs⟩ o = (agentsRoutes404, []) ∧
    (m ≠ "POST" → gateway ⟨m, "/notify" ++ s, b, qs⟩ o = (postOnly405, [])) := by
  refine ⟨?_, ?_, ?_, ?_, ?_, ?_⟩
  · have hroute : ¬ghRouteHit ⟨m, "/github" ++ s, b, qs⟩ := by
      intro hhit
      unfold ghRouteHit at hhit
      rcases hhit with ⟨hc, -⟩ | ⟨hc, -⟩ | ⟨hc, -⟩ | ⟨hc, -⟩
      · have hsr := suffix_of_append_eq "/orgs" "/github/orgs" hc (by decide)
        rw [hsr] at hs1
        exact hs1 (by decide)
      · have hn := matchOneSeg_append_none "/github" "/repos/" s hs1 (by decide)
        rw [show ("/github" : String) ++ "/repos/" = "/github/repos/" by decide] at hn
        rw [hn] at hc
        exact absurd hc (by simp)
      · have hsr := suffix_of_append_eq "/repo" "/github/repo" hc (by decide)
        rw [hsr] at hs1
        exact hs1 (by decide)
      · have hsr := suffix_of_append_eq "/file" "/github/file" hc (by decide)
        rw [hsr] at hs1
        exact hs1 (by decide)
    rw [gateway_routed hm, route_eq_github (swj_append_self "/github" s),
        handleGitHub_404 hroute]
  · have hroute : ¬stripeRouteHit ⟨m, "/stripe" ++ s, b, qs⟩ := by
      intro hhit
      unfold stripeRouteHit at hhit
      rcases hhit with ⟨hc, -⟩ | ⟨hc, -⟩ | ⟨hc, -⟩
      · have hsr := suffix_of_append_eq "/products" "/stripe/products" hc (by decide)
        rw [hsr] at hs1
        exact hs1 (by decide)
      · have hsr := suffix_of_append_eq "/product" "/stripe/product" hc (by decide)
        rw [hsr] at hs1
        exact hs1 (by decide)
      · have hsr := suffix_of_append_eq "/customers" "/stripe/customers" hc (by decide)
        rw [hsr] at hs1
        exact hs1 (by decide)
    rw [gateway_routed hm, route_eq_stripe (swj_append_self "/stripe" s),
        handleStripe_404 hroute]
  · have hroute : ¬hfRouteHit ⟨m, "/hf" ++ s, b, qs⟩ := by
      intro hhit
      unfold hfRouteHit at hhit
      rcases hhit with ⟨hc, -⟩ | ⟨hc, -⟩
      · have hsr := suffix_of_append_eq "/models" "/hf/models" hc (by decide)
        rw [hsr] at hs1
        exact hs1 (by decide)
      · have hsr := suffix_of_append_eq "/spaces" "/hf/spaces" hc (by decide)
        rw [hsr] at hs1
        exact hs1 (by decide)
    rw [gateway_routed hm, route_eq_hf (swj_append_self "/hf" s),
        handleHuggingFace_404 hroute]
  · have hroute : ¬cfRouteHit ⟨m, "/cf" ++ s, b, qs⟩ := by
      intro hhit
      unfold cfRouteHit at hhit
      rcases hhit with ⟨hc, -⟩ | ⟨hc, -⟩ | ⟨hc, -⟩
      · have hsr := suffix_of_append_eq "/workers" "/cf/workers" hc (by decide)
        rw [hsr] at hs1
        exact hs1 (by decide)
      · have hsr := suffix_of_append_eq "/kv" "/cf/kv" hc (by decide)
        rw [hsr] at hs1
        exact hs1 (by decide)
      · have hsr := suffix_of_append_eq "/d1" "/cf/d1" hc (by decide)
        rw [hsr] at hs1
        exact hs1 (by decide)
    rw [gateway_routed hm, route_eq_cf (swj_append_self "/cf" s),
        handleCloudflare_404 hroute]
  · have hroute : ¬agentsRouteHit ⟨m, "/agents" ++ s, b, qs⟩ := by
      intro hhit
      unfold agentsRouteHit at hhit
      rcases hhit with ⟨hc, -⟩ | ⟨hc, -⟩ | ⟨hc, -⟩
      · exact append_ne_self hs0 hc
      · exact append_ne_self hs0 hc
      · have hn := matchOneSeg_append_none "/agents" "/" s hs1 (by decide)
        rw [show ("/agents" : String) ++ "/" = "/agents/" by decide] at hn
        rw [hn] at hc
        exact absurd hc (by simp)
    rw [gateway_routed hm, route_eq_agents (swj_append_self "/agents" s),
        handleAgents_404 hroute]
  · intro hpost
    rw [gateway_routed hm, route_eq_notify (swj_append_self "/notify" s),
        handleNotify_405 hpost]

/-- C10 witness: the claim's own example paths, /githubextra and
/agentsfoo, plus the notify deviation at /notifyfoo. -/
theorem c10_prefix_dispatch_amended_witness :
    gateway ⟨"GET", "/githubextra", none, none⟩ o0 = (ghRoutes404, []) ∧
    gateway ⟨"GET", "/agentsfoo", none, none⟩ o0 = (agentsRoutes404, []) ∧
    gateway ⟨"GET", "/notifyfoo", none, none⟩ o0 = (postOnly405, []) :=
  ⟨(c10_prefix_dispatch_amended "GET" "extra" none none o0
      (by decide) (by decide) (by decide)).1,
   (c10_prefix_dispatch_amended "GET" "foo" none none o0
      (by decide) (by decide) (by decide)).2.2.2.2.1,
   (c10_prefix_dispatch_amended "GET" "foo" none none o0
      (by decide) (by decide) (by decide)).2.2.2.2.2 (by decide)⟩
